import Mathlib

/-!
Verification development for the py-syncrony repository.

The first part embeds src/syncrony/etcd.py: Python parameter values
(where booleans compare equal to the integers 0 and 1), the request
parameter serialization of Client.request, the request construction of
Client.get and Client.set, the per-round endpoint failover loop, the
jittered connect-retry sleep, and the index bookkeeping of
Client.watch_iter.

The second part embeds src/syncrony/election.py as a labeled transition
system over the election state (is_leader flag, watchdog timer).
-/

namespace Syncrony

/-- A Python parameter value as used by the etcd client: None, a bool,
an int, or a str. -/
inductive PyVal where
  | pyNone
  | pyBool (b : Bool)
  | pyInt (n : Int)
  | pyStr (s : String)
deriving DecidableEq

/-- Python equality (==) on these values: True == 1 and False == 0,
values of unrelated types are unequal. -/
def pyEq : PyVal → PyVal → Bool
  | .pyNone, .pyNone => true
  | .pyBool a, .pyBool b => a == b
  | .pyBool a, .pyInt n => (if a then (1 : Int) else 0) == n
  | .pyInt n, .pyBool a => n == (if a then (1 : Int) else 0)
  | .pyInt m, .pyInt n => m == n
  | .pyStr s, .pyStr t => s == t
  | _, _ => false

/-- Python truthiness of a parameter value. -/
def pyTruthy : PyVal → Bool
  | .pyNone => false
  | .pyBool b => b
  | .pyInt n => n != 0
  | .pyStr s => s != ""

/-- Python membership test `v in (True, False)`, which uses == and so
also accepts the integers 1 and 0. -/
def pyInTF (v : PyVal) : Bool :=
  pyEq v (.pyBool true) || pyEq v (.pyBool false)

/-- Python `int(v)` for the values the client passes as a wait index
(bools and ints; other values never reach this cast in the repository). -/
def pyToInt : PyVal → Int
  | .pyBool b => if b then 1 else 0
  | .pyInt n => n
  | _ => 0

/-- Boolean-token normalization done by Client.request (etcd.py lines
38-43): any parameter value equal to True or False (hence also the
integers 1 and 0) is replaced by the literal token "true" or "false". -/
def normBool (v : PyVal) : PyVal :=
  if pyInTF v then .pyStr (if pyTruthy v then "true" else "false") else v

/-- Apply the boolean-token normalization to every request parameter. -/
def normParams (params : List (String × PyVal)) : List (String × PyVal) :=
  params.map (fun p => (p.1, normBool p.2))

/-- Look up a request parameter by key. -/
def plookup : List (String × PyVal) → String → Option PyVal
  | [], _ => Option.none
  | p :: rest, k => if p.1 = k then some p.2 else plookup rest k

/-- The JSON fields of a store response body that the repository reads:
the optional errorCode, the event action, and the node modifiedIndex. -/
structure Resp where
  errorCode : Option Int := Option.none
  action : String := ""
  modifiedIndex : Int := 0
deriving DecidableEq

/-- What one endpoint does with one request attempt: the connection
fails, or the endpoint is reachable and answers with an HTTP status and
a JSON body. -/
inductive ServerOutcome where
  | connError
  | reachable (status : Nat) (body : Resp)
deriving DecidableEq

/-- How one round of the Client.request endpoint loop ends: a normal
return, a raised requests.HTTPError (from raise_for_status), a raised
EtcdException carrying the full response body, or every endpoint
failing at the connection level. -/
inductive RoundResult where
  | success (r : Resp)
  | httpError (status : Nat)
  | etcdError (r : Resp)
  | allConnFailed
deriving DecidableEq

/-- requests.Response.raise_for_status raises for 4xx and 5xx statuses. -/
def statusOk (s : Nat) : Bool := s < 400

/-- One round of Client.request (etcd.py lines 46-61): each endpoint in
order; a ConnectionError is swallowed and the next endpoint is tried; a
reachable endpoint's answer is authoritative: raise_for_status on a bad
status, EtcdException if the body has an errorCode, else return it. -/
def processRound : List ServerOutcome → RoundResult
  | [] => .allConnFailed
  | .connError :: rest => processRound rest
  | .reachable status body :: _ =>
    if !statusOk status then .httpError status
    else if body.errorCode.isSome then .etcdError body
    else .success body

/-- The outer retry loop of Client.request (etcd.py lines 45-69) on a
finite sequence of rounds: a round that is not all-connection-failures
decides the call; otherwise the client sleeps and starts the next
round. The result is none when every supplied round failed at the
connection level, i.e. the call is still retrying. -/
def runRequest : List (List ServerOutcome) → Option RoundResult
  | [] => Option.none
  | round :: rest =>
    match processRound round with
    | .allConnFailed => runRequest rest
    | r => some r

/-- etcd.py line 17. -/
def CONNECT_RETRY_INTERVAL : ℚ := 5

/-- etcd.py line 18: 0.2. -/
def CONNECT_RETRY_RANDOM_FACTOR : ℚ := 1 / 5

/-- The sleep before a new round (etcd.py lines 65-67):
interval + interval * (r * factor * 2 - factor) where r is a fresh
sample of random.random() in [0, 1). -/
def retrySleep (base factor r : ℚ) : ℚ :=
  base + base * (r * factor * 2 - factor)

/-- The sleep with the configured constants. -/
def connectRetrySleep (r : ℚ) : ℚ :=
  retrySleep CONNECT_RETRY_INTERVAL CONNECT_RETRY_RANDOM_FACTOR r

/-- The parameters Client.get sends (etcd.py lines 71-81): recursive,
sorted and wait as given; when wait is not (==-equal to) True or False,
waitIndex is set to int(wait) and wait is replaced by True. -/
structure GetParams where
  recursive : PyVal
  sorted : PyVal
  wait : PyVal
  waitIndex : Option Int := Option.none
deriving DecidableEq

/-- Request construction of Client.get. -/
def getRequest (recursive sorted wait : PyVal) : GetParams :=
  if pyInTF wait then
    { recursive := recursive, sorted := sorted, wait := wait }
  else
    { recursive := recursive, sorted := sorted, wait := .pyBool true,
      waitIndex := some (pyToInt wait) }

/-- The wait token of a get request as serialized on the wire by
Client.request. -/
def waitToken (g : GetParams) : PyVal := normBool g.wait

/-- Request construction of Client.set (etcd.py lines 83-112). The
error branch models the TypeError raised before self.request is called;
the ok branch carries the HTTP method and the parameter list handed to
Client.request. -/
def setRequest (value prev_value : PyVal) (ttl : Option Int) :
    Except String (String × List (String × PyVal)) :=
  let params0 : List (String × PyVal) :=
    match ttl with
    | some t => [("ttl", .pyInt t)]
    | Option.none => []
  let params1 : List (String × PyVal) :=
    if pyInTF prev_value then params0 ++ [("prevExist", prev_value)]
    else
      match prev_value with
      | .pyStr s => params0 ++ [("prevValue", .pyStr s)]
      | .pyNone => params0
      | v => params0 ++ [("prevIndex", v)]
  if value = .pyNone then
    if ttl ≠ Option.none then
      .error "Cannot combine a delete with a ttl"
    else if (plookup params1 "prevExist").isSome then
      .error "Cannot combine a delete with prev_value = True or False"
    else
      .ok ("DELETE", params1)
  else
    .ok ("PUT", params1 ++ [("value", value)])

/-- A full Client.set call: either the TypeError raised before any
network request, or the outcome of the network retry loop (which is
independent of the store when the TypeError fires). -/
inductive SetCallResult where
  | typeError (msg : String)
  | netResult (r : Option RoundResult)
deriving DecidableEq

/-- Client.set followed by Client.request over the given rounds of
endpoint outcomes. -/
def setCall (value prev_value : PyVal) (ttl : Option Int)
    (rounds : List (List ServerOutcome)) : SetCallResult :=
  match setRequest value prev_value ttl with
  | .error m => .typeError m
  | .ok _ => .netResult (runRequest rounds)

/-- Whether a round result is a raised exception (raise_for_status at
etcd.py line 56 or the EtcdException raise at line 60) rather than a
normal return. -/
def isRaise : RoundResult → Bool
  | .success _ => false
  | _ => true

/-- The initial wait value of Client.watch_iter (etcd.py line 131):
index = False, meaning no wait on the first get. -/
def watchInitIndex : PyVal := .pyBool false

/-- The wait value watch_iter uses after yielding an event (etcd.py
line 135): the event node's modifiedIndex plus one. -/
def watchNextIndex (r : Resp) : PyVal := .pyInt (r.modifiedIndex + 1)

/-- The get request watch_iter issues for a given wait value (etcd.py
line 133: self.get(path, wait=index), other get arguments defaulted). -/
def watchGet (idx : PyVal) : GetParams :=
  getRequest (.pyBool false) (.pyBool false) idx

/-!
Embedding of src/syncrony/election.py.
-/

/-- The configuration an Election instance carries: its lock path, its
participant identifier, the lease ttl and the renewal interval. -/
structure Config where
  path : String
  identifier : String
  ttl : Int
  interval : ℚ
deriving DecidableEq

/-- A pending watchdog timer spawned by eventlet.spawn_after: an
identity (spawn order) and the delay it was armed with. -/
structure Timer where
  id : Nat
  duration : Int
deriving DecidableEq

/-- The mutable state of an Election instance: the is_leader flag, the
pending watchdog timer if one is armed, a counter giving fresh timer
identities, and whether the initial acquire of _run has happened. -/
structure ElectionState where
  is_leader : Bool
  watchdog : Option Timer
  nextId : Nat
  started : Bool
deriving DecidableEq

/-- Election state at construction (election.py lines 25-30): is_leader
is False, no watchdog, the runner has not started. -/
def electionInit : ElectionState :=
  { is_leader := false, watchdog := Option.none, nextId := 0,
    started := false }

/-- Election._set_leader (election.py lines 79-87): cancel any pending
watchdog, set is_leader to the given value, and when becoming leader
arm a fresh watchdog for ttl seconds. -/
def set_leader (cfg : Config) (s : ElectionState) (v : Bool) :
    ElectionState :=
  { is_leader := v,
    watchdog :=
      if v then some { id := s.nextId, duration := cfg.ttl }
      else Option.none,
    nextId := if v then s.nextId + 1 else s.nextId,
    started := s.started }

/-- The conditional write Election._write issues (election.py line 92):
set(path, identifier, prev_value = old, ttl = ttl). -/
def writeReq (cfg : Config) (old : PyVal) :
    Except String (String × List (String × PyVal)) :=
  setRequest (.pyStr cfg.identifier) old (some cfg.ttl)

/-- Election._write's conversion of the Client.set outcome to a boolean
(election.py lines 89-96): a raised EtcdException is caught and becomes
False, a normal return becomes True; a requests.HTTPError is not caught
and propagates (.error); an all-connection-failure round never returns
from Client.request at all (none). -/
def writeResult : RoundResult → Option (Except Nat Bool)
  | .success _ => some (.ok true)
  | .etcdError _ => some (.ok false)
  | .httpError status => some (.error status)
  | .allConnFailed => Option.none

/-- The events that can act on an election's state in an execution of
its background task: the one-off initial acquire attempt of _run, a
renewal tick (sleep interval, then _renew) with the CAS outcome, one
watch event consumed by _try_become_leader together with the CAS
outcome if a write is attempted, and the watchdog callback firing. -/
inductive Ev where
  | initAcquire (ok : Bool)
  | renewTick (ok : Bool)
  | watchEv (action : String) (ok : Bool)
  | watchdogFire
deriving DecidableEq

/-- When an event can occur, from the structure of Election._run: the
initial acquire only before the loop starts, renewal ticks only while
leading, watch events only while following, the watchdog callback only
while a timer is pending. -/
def evGuard (s : ElectionState) : Ev → Bool
  | .initAcquire _ => !s.started
  | .renewTick _ => s.started && s.is_leader
  | .watchEv _ _ => s.started && !s.is_leader
  | .watchdogFire => s.watchdog.isSome

/-- Whether a watch event's action frees the lock (election.py line
104): only delete and expire do. -/
def isFree (action : String) : Bool :=
  action == "delete" || action == "expire"

/-- The state transition of one event, from Election._run, _renew,
_try_become_leader and _on_watchdog. -/
def evStep (cfg : Config) (s : ElectionState) : Ev → ElectionState
  | .initAcquire ok =>
    let started := { s with started := true }
    if ok then set_leader cfg started true else started
  | .renewTick ok => set_leader cfg s ok
  | .watchEv action ok =>
    if isFree action && ok then set_leader cfg s true else s
  | .watchdogFire => { s with is_leader := false, watchdog := Option.none }

/-- The conditional write an event attempts, if any: the initial
acquire and the acquire after a freeing watch event use _write(False),
a renewal uses _write(self.identifier); the watchdog and skipped watch
events write nothing. -/
def evWrite (cfg : Config) : Ev →
    Option (Except String (String × List (String × PyVal)))
  | .initAcquire _ => some (writeReq cfg (.pyBool false))
  | .renewTick _ => some (writeReq cfg (.pyStr cfg.identifier))
  | .watchEv action _ =>
    if isFree action then some (writeReq cfg (.pyBool false))
    else Option.none
  | .watchdogFire => Option.none

/-- Whether the event's CAS succeeded. -/
def evOk : Ev → Bool
  | .initAcquire ok => ok
  | .renewTick ok => ok
  | .watchEv _ ok => ok
  | .watchdogFire => false

/-- Whether an event is a successful conditional store write with one
of the two preconditions the election uses: must-not-exist
(prevExist false) or must-currently-equal-my-identifier (prevValue). -/
def successfulAcquireOrRenew (cfg : Config) (e : Ev) : Bool :=
  evOk e &&
    match evWrite cfg e with
    | some (.ok (_, params)) =>
      decide (plookup params "prevExist" = some (.pyBool false)) ||
        decide (plookup params "prevValue" = some (.pyStr cfg.identifier))
    | _ => false

/-- One iteration of the leading branch of Election._run (lines 68-70)
followed by _renew (lines 98-100): the sleep duration, the renewal
write request, and the state after _set_leader(success). -/
def leadingIteration (cfg : Config) (s : ElectionState) (ok : Bool) :
    ℚ × Except String (String × List (String × PyVal)) × ElectionState :=
  (cfg.interval, writeReq cfg (.pyStr cfg.identifier), set_leader cfg s ok)

/-- Election._try_become_leader (election.py lines 102-108) on a finite
prefix of the watch sequence. Each element pairs the event body with
the store's answer to the CAS write, used only if a write is attempted.
Returns the final state and the list of write requests issued: a
non-freeing event is skipped, a failed CAS continues the loop, a
successful CAS sets leadership and breaks. -/
def try_become_leader (cfg : Config) (s : ElectionState) :
    List (Resp × Bool) →
    ElectionState × List (Except String (String × List (String × PyVal)))
  | [] => (s, [])
  | p :: rest =>
    if isFree p.1.action then
      if p.2 then (set_leader cfg s true, [writeReq cfg (.pyBool false)])
      else
        let r := try_become_leader cfg s rest
        (r.1, writeReq cfg (.pyBool false) :: r.2)
    else try_become_leader cfg s rest

/-- The store's answer to an immediate (non-waiting) read of a path
that does not exist, per the external store contract the spec records
in section 6: a store-rejected response, i.e. a body carrying an
errorCode (etcd uses code 100, key not found). -/
def missingKeyResp : Resp :=
  { errorCode := some 100, action := "get", modifiedIndex := 0 }

/-- A store response reporting a compare-and-swap precondition
mismatch: a store-rejected body carrying an errorCode (etcd uses code
101, compare failed). -/
def casFailResp : Resp :=
  { errorCode := some 101, action := "compareAndSwap", modifiedIndex := 0 }

/-- Spec-side condition for claim C1: if an event flips is_leader from
False to True, it is a successful conditional store write with one of
the election's two preconditions. -/
def flipUpRequiresSuccessfulWrite (cfg : Config) (s : ElectionState)
    (e : Ev) : Bool :=
  !(!s.is_leader && (evStep cfg s e).is_leader) ||
    successfulAcquireOrRenew cfg e

/-- Spec-side condition for claim C1: if an event flips is_leader from
True to False, it is a failed renewal or the watchdog firing (the
source has no cancellation path at all). -/
def flipDownCauses (cfg : Config) (s : ElectionState) (e : Ev) : Bool :=
  !(s.is_leader && !(evStep cfg s e).is_leader) ||
    (decide (e = .renewTick false) || decide (e = .watchdogFire))

/-- An example configuration used by the witnesses. -/
def cfg0 : Config :=
  { path := "/election", identifier := "me", ttl := 15, interval := 5 }

/-- A normal set-event response carrying the given modification index. -/
def respWithIndex (i : Int) : Resp :=
  { errorCode := Option.none, action := "set", modifiedIndex := i }

/-- A watch event reporting that the lock key was deleted. -/
def respDel : Resp :=
  { errorCode := Option.none, action := "delete", modifiedIndex := 2 }

/-- An example follower state with the runner started, used by the
witnesses. -/
def s0 : ElectionState :=
  { is_leader := false, watchdog := Option.none, nextId := 0,
    started := true }

/-- An example leading state with an armed watchdog, used by the
witnesses. -/
def sLead : ElectionState :=
  { is_leader := true, watchdog := some { id := 0, duration := 15 },
    nextId := 1, started := true }

/-!
Helper lemmas, shared across the claim theorems.
-/

/-- The write _write(False) sends: a PUT with the must-not-exist
precondition prevExist = False, the lease ttl, and the identifier as
value. -/
lemma writeReq_acquire (cfg : Config) :
    writeReq cfg (.pyBool false) =
      .ok ("PUT", [("ttl", .pyInt cfg.ttl), ("prevExist", .pyBool false),
        ("value", .pyStr cfg.identifier)]) := by
  simp [writeReq, setRequest, pyInTF, pyEq]

/-- The write _write(self.identifier) sends: a PUT with the
must-currently-equal-my-identifier precondition prevValue, the lease
ttl, and the identifier as value. -/
lemma writeReq_renew (cfg : Config) :
    writeReq cfg (.pyStr cfg.identifier) =
      .ok ("PUT", [("ttl", .pyInt cfg.ttl),
        ("prevValue", .pyStr cfg.identifier),
        ("value", .pyStr cfg.identifier)]) := by
  simp [writeReq, setRequest, pyInTF, pyEq]

lemma sar_initAcquire (cfg : Config) (ok : Bool) :
    successfulAcquireOrRenew cfg (.initAcquire ok) = ok := by
  simp [successfulAcquireOrRenew, evWrite, evOk, writeReq_acquire, plookup]

lemma sar_watchEv (cfg : Config) (a : String) (ok : Bool)
    (h : isFree a = true) :
    successfulAcquireOrRenew cfg (.watchEv a ok) = ok := by
  simp [successfulAcquireOrRenew, evWrite, evOk, h, writeReq_acquire,
    plookup]

lemma processRound_allConn : ∀ (round : List ServerOutcome),
    (∀ o ∈ round, o = ServerOutcome.connError) →
    processRound round = .allConnFailed
  | [], _ => rfl
  | o :: rest, h => by
    have ho : o = .connError := h o (List.mem_cons_self _ _)
    subst ho
    have hrest := processRound_allConn rest
      (fun q hq => h q (List.mem_cons_of_mem _ hq))
    rw [show processRound (ServerOutcome.connError :: rest) =
      processRound rest from rfl]
    exact hrest

lemma runRequest_allConn : ∀ (rounds : List (List ServerOutcome)),
    (∀ round ∈ rounds, ∀ o ∈ round, o = ServerOutcome.connError) →
    runRequest rounds = Option.none
  | [], _ => rfl
  | round :: rest, h => by
    have h1 : processRound round = .allConnFailed :=
      processRound_allConn round (h round (List.mem_cons_self _ _))
    have h2 := runRequest_allConn rest
      (fun q hq => h q (List.mem_cons_of_mem _ hq))
    simp [runRequest, h1, h2]

/-- A non-freeing watch event is skipped: no write, the loop moves on. -/
lemma tbl_cons_skip (cfg : Config) (s : ElectionState) (p : Resp × Bool)
    (rest : List (Resp × Bool)) (hf : isFree p.1.action = false) :
    try_become_leader cfg s (p :: rest) = try_become_leader cfg s rest := by
  simp [try_become_leader, hf]

/-- A freeing watch event with a failed CAS: the write is attempted and
the loop continues on the remaining events. -/
lemma tbl_cons_fail (cfg : Config) (s : ElectionState) (p : Resp × Bool)
    (rest : List (Resp × Bool)) (hf : isFree p.1.action = true)
    (ho : p.2 = false) :
    try_become_leader cfg s (p :: rest) =
      ((try_become_leader cfg s rest).1,
        writeReq cfg (.pyBool false) :: (try_become_leader cfg s rest).2) := by
  simp [try_become_leader, hf, ho]

/-- A freeing watch event with a successful CAS: the write is attempted,
leadership is set, and the loop breaks. -/
lemma tbl_cons_succ (cfg : Config) (s : ElectionState) (p : Resp × Bool)
    (rest : List (Resp × Bool)) (hf : isFree p.1.action = true)
    (ho : p.2 = true) :
    try_become_leader cfg s (p :: rest) =
      (set_leader cfg s true, [writeReq cfg (.pyBool false)]) := by
  simp [try_become_leader, hf, ho]

/-- Every write _try_become_leader issues is the same must-not-exist
CAS: the list of issued requests is a replicate of writeReq(False). -/
lemma tbl_writes (cfg : Config) (s : ElectionState) :
    ∀ events : List (Resp × Bool),
    (try_become_leader cfg s events).2 =
      List.replicate (try_become_leader cfg s events).2.length
        (writeReq cfg (.pyBool false))
  | [] => rfl
  | p :: rest => by
    have ih := tbl_writes cfg s rest
    cases hf : isFree p.1.action with
    | false =>
      rw [tbl_cons_skip cfg s p rest hf]
      exact ih
    | true =>
      cases ho : p.2 with
      | true =>
        rw [tbl_cons_succ cfg s p rest hf ho]
        rfl
      | false =>
        rw [tbl_cons_fail cfg s p rest hf ho]
        show writeReq cfg (.pyBool false) :: (try_become_leader cfg s rest).2 =
          List.replicate (writeReq cfg (.pyBool false) ::
            (try_become_leader cfg s rest).2).length
            (writeReq cfg (.pyBool false))
        rw [List.length_cons, List.replicate_succ]
        exact congrArg (List.cons _) ih

/-- Without a successful CAS, _try_become_leader keeps consuming the
watch and never changes the state. -/
lemma tbl_no_success (cfg : Config) (s : ElectionState) :
    ∀ events : List (Resp × Bool),
    (∀ q ∈ events, isFree q.1.action = false ∨ q.2 = false) →
    (try_become_leader cfg s events).1 = s
  | [], _ => rfl
  | p :: rest, h => by
    have ih := tbl_no_success cfg s rest
      (fun q hq => h q (List.mem_cons_of_mem _ hq))
    rcases h p (List.mem_cons_self _ _) with hp | hp
    · rw [tbl_cons_skip cfg s p rest hp]
      exact ih
    · cases hf : isFree p.1.action with
      | false =>
        rw [tbl_cons_skip cfg s p rest hf]
        exact ih
      | true =>
        rw [tbl_cons_fail cfg s p rest hf hp]
        exact ih

/-- The first freeing event with a successful CAS ends the loop: the
result only depends on the prefix before it, leadership is set, and the
events after it are never consumed. -/
lemma tbl_exit (cfg : Config) (s : ElectionState) :
    ∀ pre : List (Resp × Bool),
    (∀ q ∈ pre, isFree q.1.action = false ∨ q.2 = false) →
    ∀ (ev : Resp × Bool) (rest : List (Resp × Bool)),
    isFree ev.1.action = true → ev.2 = true →
    try_become_leader cfg s (pre ++ ev :: rest) =
      (set_leader cfg s true,
        (try_become_leader cfg s pre).2 ++ [writeReq cfg (.pyBool false)])
  | [], _, ev, rest, hf, ho => by
    rw [List.nil_append, tbl_cons_succ cfg s ev rest hf ho]
    rfl
  | p :: pre, h, ev, rest, hf, ho => by
    have ih := tbl_exit cfg s pre
      (fun q hq => h q (List.mem_cons_of_mem _ hq)) ev rest hf ho
    rcases h p (List.mem_cons_self _ _) with hp | hp
    · rw [List.cons_append, tbl_cons_skip cfg s p _ hp, ih,
        tbl_cons_skip cfg s p pre hp]
    · cases hfp : isFree p.1.action with
      | false =>
        rw [List.cons_append, tbl_cons_skip cfg s p _ hfp, ih,
          tbl_cons_skip cfg s p pre hfp]
      | true =>
        rw [List.cons_append, tbl_cons_fail cfg s p _ hfp hp, ih,
          tbl_cons_fail cfg s p pre hfp hp]
        simp [List.cons_append]

/-!
Claim theorems.
-/

/-- Claim C7: a set call with the deletion sentinel (value None)
combined with a lease, or combined with an existence precondition
(prev_value ==-equal to True or False), fails with a TypeError raised
before any network request: the outcome is the same for every possible
behavior of the store endpoints, which are never contacted. -/
theorem delete_contract_violation_fails_fast (t : Int) (pv pv2 : PyVal)
    (rounds rounds2 : List (List ServerOutcome))
    (h : pyInTF pv2 = true) :
    setCall .pyNone pv (some t) rounds =
      .typeError "Cannot combine a delete with a ttl" ∧
    setCall .pyNone pv2 Option.none rounds2 =
      .typeError "Cannot combine a delete with prev_value = True or False" := by
  constructor
  · simp [setCall, setRequest]
  · simp [setCall, setRequest, h, plookup]

theorem delete_contract_violation_fails_fast_witness :
    setCall .pyNone (.pyStr "x") (some 15)
        [[.reachable 200 { errorCode := Option.none }]] =
      .typeError "Cannot combine a delete with a ttl" ∧
    setCall .pyNone (.pyBool false) Option.none [] =
      .typeError "Cannot combine a delete with prev_value = True or False" :=
  delete_contract_violation_fails_fast 15 (.pyStr "x") (.pyBool false)
    [[.reachable 200 { errorCode := Option.none }]] [] (by decide)

/-- Claim C8: in one round of the endpoint loop, a connection-level
failure is swallowed and the same request moves on to the next endpoint
of the same round, while a reachable endpoint answering with an HTTP
error status or a JSON body containing an errorCode makes the request
raise immediately, with the remaining endpoints never attempted (the
result does not depend on them). -/
theorem endpoint_failover_semantics (status1 status2 : Nat)
    (body1 body2 : Resp) (rest rest1 rest2 : List ServerOutcome)
    (h1 : statusOk status1 = false)
    (h2 : statusOk status2 = true) (h3 : body2.errorCode.isSome = true) :
    processRound (.connError :: rest) = processRound rest ∧
    processRound (.reachable status1 body1 :: rest1) =
      .httpError status1 ∧
    isRaise (.httpError status1) = true ∧
    processRound (.reachable status2 body2 :: rest2) = .etcdError body2 ∧
    isRaise (.etcdError body2) = true := by
  refine ⟨rfl, ?_, rfl, ?_, rfl⟩
  · simp [processRound, h1]
  · simp [processRound, h2, h3]

theorem endpoint_failover_semantics_witness :
    processRound [.connError, .reachable 200 { errorCode := Option.none }] =
      processRound [.reachable 200 { errorCode := Option.none }] ∧
    processRound [.reachable 404 { errorCode := some 100 },
        .reachable 200 { errorCode := Option.none }] = .httpError 404 ∧
    isRaise (.httpError 404) = true ∧
    processRound [.reachable 200 casFailResp,
        .reachable 200 { errorCode := Option.none }] =
      .etcdError casFailResp ∧
    isRaise (.etcdError casFailResp) = true :=
  endpoint_failover_semantics 404 200 { errorCode := some 100 } casFailResp
    [.reachable 200 { errorCode := Option.none }]
    [.reachable 200 { errorCode := Option.none }]
    [.reachable 200 { errorCode := Option.none }]
    (by decide) (by decide) (by decide)

/-- Claim C9: when every endpoint of every round fails at the
connection level the request loop never surfaces an error (it is still
retrying after any number of rounds), and each inter-round sleep d
drawn from a random sample r in [0, 1) satisfies
base * (1 - 0.2) <= d < base * (1 + 0.2) with the configured base
interval of 5 seconds and random factor 0.2. -/
theorem connect_retry_jitter_and_persistence
    (rounds : List (List ServerOutcome))
    (hconn : ∀ round ∈ rounds, ∀ o ∈ round, o = ServerOutcome.connError)
    (r : ℚ) (h0 : 0 ≤ r) (h1 : r < 1) :
    runRequest rounds = Option.none ∧
    CONNECT_RETRY_INTERVAL * (1 - CONNECT_RETRY_RANDOM_FACTOR) ≤
      connectRetrySleep r ∧
    connectRetrySleep r <
      CONNECT_RETRY_INTERVAL * (1 + CONNECT_RETRY_RANDOM_FACTOR) ∧
    CONNECT_RETRY_INTERVAL = 5 ∧ CONNECT_RETRY_RANDOM_FACTOR = 1 / 5 := by
  refine ⟨runRequest_allConn rounds hconn, ?_, ?_, rfl, rfl⟩
  · simp only [connectRetrySleep, retrySleep, CONNECT_RETRY_INTERVAL,
      CONNECT_RETRY_RANDOM_FACTOR]
    linarith
  · simp only [connectRetrySleep, retrySleep, CONNECT_RETRY_INTERVAL,
      CONNECT_RETRY_RANDOM_FACTOR]
    linarith

theorem connect_retry_jitter_and_persistence_witness :
    runRequest [[.connError], [.connError, .connError]] = Option.none ∧
    CONNECT_RETRY_INTERVAL * (1 - CONNECT_RETRY_RANDOM_FACTOR) ≤
      connectRetrySleep (1 / 2) ∧
    connectRetrySleep (1 / 2) <
      CONNECT_RETRY_INTERVAL * (1 + CONNECT_RETRY_RANDOM_FACTOR) ∧
    CONNECT_RETRY_INTERVAL = 5 ∧ CONNECT_RETRY_RANDOM_FACTOR = 1 / 5 :=
  connect_retry_jitter_and_persistence
    [[.connError], [.connError, .connError]] (by decide) (1 / 2)
    (by norm_num) (by norm_num)

/-- Claim C10: an integer 0 or 1 supplied at the client interface is
treated as the corresponding boolean: set with prev_value 0 or 1 sends
the existence precondition prevExist (not prevIndex), get with wait 0
or 1 builds an immediate or plain waiting read (no waitIndex), request
serializes a parameter ==-equal to 0 or 1 as the token "false"/"true",
and no integer wait value can produce waitIndex 0 or 1. -/
theorem int_zero_one_as_booleans (rec sor : PyVal) (v : String)
    (t : Int) (n : Int) :
    setRequest (.pyStr v) (.pyInt 0) (some t) =
      .ok ("PUT", [("ttl", .pyInt t), ("prevExist", .pyInt 0),
        ("value", .pyStr v)]) ∧
    setRequest (.pyStr v) (.pyInt 1) (some t) =
      .ok ("PUT", [("ttl", .pyInt t), ("prevExist", .pyInt 1),
        ("value", .pyStr v)]) ∧
    (getRequest rec sor (.pyInt 0)).waitIndex = Option.none ∧
    waitToken (getRequest rec sor (.pyInt 0)) = .pyStr "false" ∧
    (getRequest rec sor (.pyInt 1)).waitIndex = Option.none ∧
    waitToken (getRequest rec sor (.pyInt 1)) = .pyStr "true" ∧
    normBool (.pyInt 0) = .pyStr "false" ∧
    normBool (.pyInt 1) = .pyStr "true" ∧
    ((getRequest rec sor (.pyInt n)).waitIndex = Option.none ∨
      ((getRequest rec sor (.pyInt n)).waitIndex = some n ∧
        (n < 0 ∨ 2 ≤ n))) := by
  refine ⟨?_, ?_, ?_, ?_, ?_, ?_, by decide, by decide, ?_⟩
  · simp [setRequest, pyInTF, pyEq]
  · simp [setRequest, pyInTF, pyEq]
  · simp [getRequest, pyInTF, pyEq]
  · simp [getRequest, waitToken, normBool, pyInTF, pyEq, pyTruthy]
  · simp [getRequest, pyInTF, pyEq]
  · simp [getRequest, waitToken, normBool, pyInTF, pyEq, pyTruthy]
  · by_cases hn0 : n = 0
    · subst hn0
      left
      simp [getRequest, pyInTF, pyEq]
    · by_cases hn1 : n = 1
      · subst hn1
        left
        simp [getRequest, pyInTF, pyEq]
      · right
        have hin : pyInTF (.pyInt n) = false := by
          simp [pyInTF, pyEq]
          omega
        refine ⟨by simp [getRequest, hin, pyToInt], by omega⟩

theorem int_zero_one_as_booleans_witness :
    setRequest (.pyStr "me") (.pyInt 0) (some 15) =
      .ok ("PUT", [("ttl", .pyInt 15), ("prevExist", .pyInt 0),
        ("value", .pyStr "me")]) ∧
    setRequest (.pyStr "me") (.pyInt 1) (some 15) =
      .ok ("PUT", [("ttl", .pyInt 15), ("prevExist", .pyInt 1),
        ("value", .pyStr "me")]) ∧
    (getRequest (.pyBool false) (.pyBool false) (.pyInt 0)).waitIndex =
      Option.none ∧
    waitToken (getRequest (.pyBool false) (.pyBool false) (.pyInt 0)) =
      .pyStr "false" ∧
    (getRequest (.pyBool false) (.pyBool false) (.pyInt 1)).waitIndex =
      Option.none ∧
    waitToken (getRequest (.pyBool false) (.pyBool false) (.pyInt 1)) =
      .pyStr "true" ∧
    normBool (.pyInt 0) = .pyStr "false" ∧
    normBool (.pyInt 1) = .pyStr "true" ∧
    ((getRequest (.pyBool false) (.pyBool false) (.pyInt 7)).waitIndex =
        Option.none ∨
      ((getRequest (.pyBool false) (.pyBool false) (.pyInt 7)).waitIndex =
          some 7 ∧ ((7 : Int) < 0 ∨ (2 : Int) ≤ 7))) :=
  int_zero_one_as_booleans (.pyBool false) (.pyBool false) "me" 15 7

/-- Claim C4 names behavior the code does not have: watch_iter starts
with index = False, so its first demand issues a non-waiting read (the
serialized wait token is "false" and no waitIndex is sent); on a path
that does not exist the store answers that immediate read with a
store-rejected errorCode body, on which the client raises EtcdException
instead of blocking until the value first appears. This contradicts the
watch_iter docstring (etcd.py line 129). -/
theorem watch_first_demand_immediate_not_blocking :
    (watchGet watchInitIndex).waitIndex = Option.none ∧
    waitToken (watchGet watchInitIndex) = .pyStr "false" ∧
    processRound [.reachable 200 missingKeyResp] =
      .etcdError missingKeyResp ∧
    isRaise (.etcdError missingKeyResp) = true := by
  decide

/-- Claim C5 fails at modification index 0: the next wait value is
0 + 1 = 1, and Python evaluates 1 in (True, False) as true, so the next
get sends no waitIndex at all; it is a plain waiting read (wait token
"true"), not a read resuming strictly after index 0. -/
theorem watch_resume_index_zero_cex :
    watchNextIndex (respWithIndex 0) = .pyInt 1 ∧
    (watchGet (watchNextIndex (respWithIndex 0))).waitIndex =
      Option.none ∧
    waitToken (watchGet (watchNextIndex (respWithIndex 0))) =
      .pyStr "true" := by
  decide

/-- Claim C5 amended: for every yielded event whose modification index
I is at least 1, the next demand of watch_iter issues a waiting read
with waitIndex = I + 1 (resuming strictly after I) and wait token
"true". -/
theorem watch_resume_strictly_after (r : Resp)
    (h : 1 ≤ r.modifiedIndex) :
    (watchGet (watchNextIndex r)).waitIndex = some (r.modifiedIndex + 1) ∧
    waitToken (watchGet (watchNextIndex r)) = .pyStr "true" := by
  have hin : pyInTF (.pyInt (r.modifiedIndex + 1)) = false := by
    simp [pyInTF, pyEq]
    omega
  have h1 : watchGet (watchNextIndex r) =
      { recursive := .pyBool false, sorted := .pyBool false,
        wait := .pyBool true, waitIndex := some (r.modifiedIndex + 1) } := by
    simp [watchGet, watchNextIndex, getRequest, hin, pyToInt]
  rw [h1]
  constructor
  · rfl
  · simp [waitToken, normBool, pyInTF, pyEq, pyTruthy]

theorem watch_resume_strictly_after_witness :
    (watchGet (watchNextIndex (respWithIndex 41))).waitIndex = some 42 ∧
    waitToken (watchGet (watchNextIndex (respWithIndex 41))) =
      .pyStr "true" :=
  watch_resume_strictly_after (respWithIndex 41) (by norm_num [respWithIndex])

/-- Claim C6 fails on the store client itself: a CAS precondition
mismatch reported by the store (an errorCode body) makes Client.set
raise EtcdException (etcd.py line 60), not return a normal failure
value. -/
theorem set_cas_failure_raises_cex :
    setCall (.pyStr "me") (.pyBool false) (some 15)
        [[.reachable 200 casFailResp]] =
      .netResult (some (.etcdError casFailResp)) ∧
    isRaise (.etcdError casFailResp) = true := by
  decide

/-- Claim C6 amended: the store client surfaces a CAS precondition
mismatch by raising EtcdException carrying the full decoded response
body (so its errorCode distinguishes a CAS failure from other
store-rejected errors), without consulting further endpoints; the
election's _write wrapper catches exactly that exception and turns it
into a normal boolean failure return, while a successful write becomes
True. -/
theorem set_cas_failure_exception_and_wrapper (body succ : Resp)
    (rest : List ServerOutcome) (h : body.errorCode.isSome = true) :
    processRound (.reachable 200 body :: rest) = .etcdError body ∧
    writeResult (.etcdError body) = some (.ok false) ∧
    writeResult (.success succ) = some (.ok true) := by
  refine ⟨?_, rfl, rfl⟩
  simp [processRound, statusOk, h]

theorem set_cas_failure_exception_and_wrapper_witness :
    processRound [.reachable 200 casFailResp] = .etcdError casFailResp ∧
    writeResult (.etcdError casFailResp) = some (.ok false) ∧
    writeResult (.success (respWithIndex 3)) = some (.ok true) :=
  set_cas_failure_exception_and_wrapper casFailResp (respWithIndex 3)
    [] (by decide)

/-- Claim C1: is_leader is False at construction; for every state and
every event admissible in the election task, an event that flips
is_leader from False to True is a successful conditional store write
(the initial or follower acquire with prevExist False, or a renewal
with prevValue = identifier), and an event that flips it from True to
False is a failed renewal or the watchdog firing (the source has no
cancellation path, so these are the only False-setters). -/
theorem leader_flag_lifecycle (cfg : Config) (s : ElectionState)
    (e : Ev) (hg : evGuard s e = true) :
    electionInit.is_leader = false ∧
    flipUpRequiresSuccessfulWrite cfg s e = true ∧
    flipDownCauses cfg s e = true := by
  refine ⟨rfl, ?_, ?_⟩
  · cases e with
    | initAcquire ok =>
      cases ok with
      | false =>
        cases hl : s.is_leader <;>
          simp [flipUpRequiresSuccessfulWrite, evStep, hl]
      | true =>
        simp [flipUpRequiresSuccessfulWrite, sar_initAcquire]
    | renewTick ok =>
      have hl : s.is_leader = true := by
        simp [evGuard] at hg
        exact hg.2
      simp [flipUpRequiresSuccessfulWrite, hl]
    | watchEv a ok =>
      cases hf : isFree a with
      | false =>
        cases hl : s.is_leader <;>
          simp [flipUpRequiresSuccessfulWrite, evStep, hf, hl]
      | true =>
        cases ok with
        | false =>
          cases hl : s.is_leader <;>
            simp [flipUpRequiresSuccessfulWrite, evStep, hf, hl]
        | true =>
          simp [flipUpRequiresSuccessfulWrite, sar_watchEv cfg a true hf]
    | watchdogFire =>
      simp [flipUpRequiresSuccessfulWrite, evStep]
  · cases e with
    | initAcquire ok =>
      cases ok with
      | false =>
        cases hl : s.is_leader <;> simp [flipDownCauses, evStep, hl]
      | true =>
        simp [flipDownCauses, evStep, set_leader]
    | renewTick ok =>
      cases ok with
      | true => simp [flipDownCauses, evStep, set_leader]
      | false => simp [flipDownCauses]
    | watchEv a ok =>
      have hl : s.is_leader = false := by
        simp [evGuard] at hg
        exact hg.2
      simp [flipDownCauses, hl]
    | watchdogFire =>
      simp [flipDownCauses]

theorem leader_flag_lifecycle_witness :
    electionInit.is_leader = false ∧
    flipUpRequiresSuccessfulWrite cfg0 s0 (.watchEv "delete" true) = true ∧
    flipDownCauses cfg0 s0 (.watchEv "delete" true) = true :=
  leader_flag_lifecycle cfg0 s0 (.watchEv "delete" true) (by decide)

/-- Claim C2: in the leading state one iteration of the loop sleeps for
interval and then issues the renewal write (PUT with prevValue =
identifier and the lease ttl); on success the instance stays leader and
the watchdog is cancelled and re-armed as a fresh timer of ttl seconds
(its identity differs from the cancelled one); on failure is_leader
becomes False, the watchdog is disarmed, and the loop proceeds with the
follower branch (watch events are now the admissible events). -/
theorem leading_renewal_step (cfg : Config) (s : ElectionState)
    (t : Timer) (a : String) (okw : Bool)
    (hl : s.is_leader = true) (hs : s.started = true)
    (hw : s.watchdog = some t) (hid : t.id < s.nextId) :
    evGuard s (.renewTick true) = true ∧
    (leadingIteration cfg s true).1 = cfg.interval ∧
    (leadingIteration cfg s true).2.1 =
      .ok ("PUT", [("ttl", .pyInt cfg.ttl),
        ("prevValue", .pyStr cfg.identifier),
        ("value", .pyStr cfg.identifier)]) ∧
    (leadingIteration cfg s true).2.2.is_leader = true ∧
    (leadingIteration cfg s true).2.2.watchdog =
      some { id := s.nextId, duration := cfg.ttl } ∧
    (t.id == s.nextId) = false ∧
    (leadingIteration cfg s false).2.2.is_leader = false ∧
    (leadingIteration cfg s false).2.2.watchdog = Option.none ∧
    evGuard ((leadingIteration cfg s false).2.2) (.watchEv a okw) = true := by
  refine ⟨?_, rfl, ?_, rfl, rfl, ?_, rfl, rfl, ?_⟩
  · simp [evGuard, hl, hs]
  · exact writeReq_renew cfg
  · simp only [beq_eq_false_iff_ne]
    omega
  · simp [evGuard, leadingIteration, set_leader, hs]

theorem leading_renewal_step_witness :
    evGuard sLead (.renewTick true) = true ∧
    (leadingIteration cfg0 sLead true).1 = cfg0.interval ∧
    (leadingIteration cfg0 sLead true).2.1 =
      .ok ("PUT", [("ttl", .pyInt cfg0.ttl),
        ("prevValue", .pyStr cfg0.identifier),
        ("value", .pyStr cfg0.identifier)]) ∧
    (leadingIteration cfg0 sLead true).2.2.is_leader = true ∧
    (leadingIteration cfg0 sLead true).2.2.watchdog =
      some { id := sLead.nextId, duration := cfg0.ttl } ∧
    (({ id := 0, duration := 15 } : Timer).id == sLead.nextId) = false ∧
    (leadingIteration cfg0 sLead false).2.2.is_leader = false ∧
    (leadingIteration cfg0 sLead false).2.2.watchdog = Option.none ∧
    evGuard ((leadingIteration cfg0 sLead false).2.2)
      (.watchEv "expire" false) = true :=
  leading_renewal_step cfg0 sLead { id := 0, duration := 15 } "expire"
    false (by decide) (by decide) (by decide) (by decide)

/-- Claim C3: in the following state, over any sequence of watch
events: every write the loop issues is the must-not-exist CAS (a PUT
with prevExist False and the lease ttl); a non-freeing event is skipped
with no write; a freeing (delete/expire) event triggers the CAS, and a
failed CAS continues consuming the watch without error and without
changing the state; the first successful CAS sets is_leader True, arms
the watchdog for ttl seconds, and exits the loop (the events after it
are never consumed). -/
theorem following_watch_loop (cfg : Config) (s : ElectionState)
    (events pre rest rest2 rest3 : List (Resp × Bool))
    (p ev ev2 : Resp × Bool)
    (hnp : isFree p.1.action = false)
    (hpre : ∀ q ∈ pre, isFree q.1.action = false ∨ q.2 = false)
    (hnone : ∀ q ∈ events, isFree q.1.action = false ∨ q.2 = false)
    (hfr : isFree ev.1.action = true) (hok : ev.2 = true)
    (hfr2 : isFree ev2.1.action = true) (hok2 : ev2.2 = false) :
    (try_become_leader cfg s events).2 =
      List.replicate (try_become_leader cfg s events).2.length
        (writeReq cfg (.pyBool false)) ∧
    writeReq cfg (.pyBool false) =
      .ok ("PUT", [("ttl", .pyInt cfg.ttl), ("prevExist", .pyBool false),
        ("value", .pyStr cfg.identifier)]) ∧
    try_become_leader cfg s (p :: rest) = try_become_leader cfg s rest ∧
    try_become_leader cfg s (ev2 :: rest2) =
      ((try_become_leader cfg s rest2).1,
        writeReq cfg (.pyBool false) ::
          (try_become_leader cfg s rest2).2) ∧
    (try_become_leader cfg s events).1 = s ∧
    try_become_leader cfg s (pre ++ ev :: rest3) =
      (set_leader cfg s true,
        (try_become_leader cfg s pre).2 ++
          [writeReq cfg (.pyBool false)]) ∧
    (set_leader cfg s true).is_leader = true ∧
    (set_leader cfg s true).watchdog =
      some { id := s.nextId, duration := cfg.ttl } :=
  ⟨tbl_writes cfg s events, writeReq_acquire cfg,
    tbl_cons_skip cfg s p rest hnp,
    tbl_cons_fail cfg s ev2 rest2 hfr2 hok2,
    tbl_no_success cfg s events hnone,
    tbl_exit cfg s pre hpre ev rest3 hfr hok, rfl, rfl⟩

theorem following_watch_loop_witness :
    (try_become_leader cfg0 s0 [(respWithIndex 1, true), (respDel, false)]).2 =
      List.replicate
        (try_become_leader cfg0 s0
          [(respWithIndex 1, true), (respDel, false)]).2.length
        (writeReq cfg0 (.pyBool false)) ∧
    writeReq cfg0 (.pyBool false) =
      .ok ("PUT", [("ttl", .pyInt cfg0.ttl), ("prevExist", .pyBool false),
        ("value", .pyStr cfg0.identifier)]) ∧
    try_become_leader cfg0 s0 [(respWithIndex 1, true), (respDel, true)] =
      try_become_leader cfg0 s0 [(respDel, true)] ∧
    try_become_leader cfg0 s0 [(respDel, false)] =
      ((try_become_leader cfg0 s0 []).1,
        writeReq cfg0 (.pyBool false) ::
          (try_become_leader cfg0 s0 []).2) ∧
    (try_become_leader cfg0 s0
      [(respWithIndex 1, true), (respDel, false)]).1 = s0 ∧
    try_become_leader cfg0 s0
        ([(respDel, false)] ++ (respDel, true) :: [(respDel, true)]) =
      (set_leader cfg0 s0 true,
        (try_become_leader cfg0 s0 [(respDel, false)]).2 ++
          [writeReq cfg0 (.pyBool false)]) ∧
    (set_leader cfg0 s0 true).is_leader = true ∧
    (set_leader cfg0 s0 true).watchdog =
      some { id := s0.nextId, duration := cfg0.ttl } :=
  following_watch_loop cfg0 s0 [(respWithIndex 1, true), (respDel, false)]
    [(respDel, false)] [(respDel, true)] [] [(respDel, true)]
    (respWithIndex 1, true) (respDel, true) (respDel, false)
    (by decide) (by decide) (by decide) (by decide) (by decide)
    (by decide) (by decide)

end Syncrony
